import Mathlib

/-!
Verification development for the multi-agent supervisor/orchestrator.

The definitions below are a shallow embedding of the repository's core:
the delegate-calling tools of `src/agents/supervisor/tools.py`, the
supervisor graph of `src/agents/supervisor/graph/graph.py` (decision node,
routing condition, tool node, compiled graph loop, `run`), and the entry
points of `src/agents/supervisor/agent.py` and `main.py`.  Network effects
are made explicit: the single HTTP call a tool performs is represented by
a `CallOutcome` value (connection error / HTTP status plus optional JSON
body), and the opaque text-completion capability by a function argument.
-/

/-- A JSON value, as produced by `response.json()` in `tools.py`. -/
inductive JValue where
  | jnull
  | jbool (b : Bool)
  | jnum (n : Int)
  | jstr (s : String)
  | jarr (elems : List JValue)
  | jobj (fields : List (String × JValue))

/-- Python exception classes that can escape an expression inside the
tools' `try` block; the `except Exception` clause catches all of them. -/
inductive PyErr where
  | typeError
  | keyError
  | indexError
  | attributeError
  | httpStatusError
  | jsonDecodeError
  | networkError
deriving DecidableEq

/-- Python substring test `pat in s` on strings. -/
def strContains (s pat : String) : Bool :=
  if pat = "" then true else (s.splitOn pat).length > 1

/-- Python `key in v` for a string `key`: key membership on dicts, element
equality on lists, substring test on strings, `TypeError` otherwise. -/
def pyContains (v : JValue) (key : String) : Except PyErr Bool :=
  match v with
  | .jobj fields => .ok (fields.any (fun q => q.fst == key))
  | .jarr elems => .ok (elems.any (fun e =>
      match e with
      | .jstr s => s == key
      | _ => false))
  | .jstr s => .ok (strContains s key)
  | _ => .error .typeError

/-- Python `v[key]` for a string `key`: dict lookup raising `KeyError`
when absent, `TypeError` on every non-dict value. -/
def pySubscriptStr (v : JValue) (key : String) : Except PyErr JValue :=
  match v with
  | .jobj fields =>
    match fields.find? (fun q => q.fst == key) with
    | some q => .ok q.snd
    | none => .error .keyError
  | _ => .error .typeError

/-- Python `v[0]`: head of a list (raising `IndexError` when empty), first
character of a string, `KeyError` on a JSON dict (string keys only),
`TypeError` otherwise. -/
def pySubscriptZero (v : JValue) : Except PyErr JValue :=
  match v with
  | .jarr [] => .error .indexError
  | .jarr (x :: _) => .ok x
  | .jstr s => if s = "" then .error .indexError else .ok (.jstr (s.take 1))
  | .jobj _ => .error .keyError
  | _ => .error .typeError

/-- Python `v.get(key, dflt)`: only dicts carry `.get`; every other value
raises `AttributeError`. -/
def pyGet (v : JValue) (key : String) (dflt : JValue) : Except PyErr JValue :=
  match v with
  | .jobj fields =>
    match fields.find? (fun q => q.fst == key) with
    | some q => .ok q.snd
    | none => .ok dflt
  | _ => .error .attributeError

/-- Outcome of the one `client.post` a tool performs: either the call
itself fails (connection error or timeout), or an HTTP response arrives
with a status code and a body; `none` models a body `response.json()`
cannot parse. -/
inductive CallOutcome where
  | networkError
  | httpResponse (status : Nat) (body : Option JValue)

/-- The body of the `try` block shared by `call_cisco_agent` and
`call_service_catalog_agent` in `tools.py`: raise on a network failure,
`raise_for_status` on a non-2xx status, parse the JSON body, then
`if "message" in response_data and "parts" in response_data["message"]:
return response_data["message"]["parts"][0].get("text", "")` and otherwise
return the agent-specific "did not return a valid response" string. -/
def callAgentBody (invalidMsg : String) (o : CallOutcome) : Except PyErr JValue :=
  match o with
  | .networkError => .error .networkError
  | .httpResponse status body =>
    if status < 200 ∨ 300 ≤ status then .error .httpStatusError
    else
      match body with
      | none => .error .jsonDecodeError
      | some data =>
        match pyContains data "message" with
        | .error e => .error e
        | .ok false => .ok (.jstr invalidMsg)
        | .ok true =>
          match pySubscriptStr data "message" with
          | .error e => .error e
          | .ok msgVal =>
            match pyContains msgVal "parts" with
            | .error e => .error e
            | .ok false => .ok (.jstr invalidMsg)
            | .ok true =>
              match pySubscriptStr data "message" with
              | .error e => .error e
              | .ok msgVal2 =>
                match pySubscriptStr msgVal2 "parts" with
                | .error e => .error e
                | .ok partsVal =>
                  match pySubscriptZero partsVal with
                  | .error e => .error e
                  | .ok firstPart => pyGet firstPart "text" (.jstr "")

/-- A whole tool invocation: the `try` body with its `except Exception`
clause, which turns every escaping exception into the empty string. -/
def callAgentResult (invalidMsg : String) (o : CallOutcome) : JValue :=
  match callAgentBody invalidMsg o with
  | .ok v => v
  | .error _ => .jstr ""

/-- The failure string of `call_cisco_agent`. -/
def ciscoInvalidMsg : String := "Cisco Intersight Agent did not return a valid response."

/-- The failure string of `call_service_catalog_agent`. -/
def catalogInvalidMsg : String := "Service Catalog Agent did not return a valid response."

/-- Result of `call_cisco_agent` as a function of its network outcome. -/
def call_cisco_agent_result (o : CallOutcome) : JValue :=
  callAgentResult ciscoInvalidMsg o

/-- Result of `call_service_catalog_agent` as a function of its network outcome. -/
def call_service_catalog_agent_result (o : CallOutcome) : JValue :=
  callAgentResult catalogInvalidMsg o

/-- Whether the guard `"message" in response_data and "parts" in
response_data["message"]` evaluates to `True` without raising. -/
def guardHolds (data : JValue) : Bool :=
  match pyContains data "message" with
  | .ok true =>
    match pySubscriptStr data "message" with
    | .ok msgVal =>
      match pyContains msgVal "parts" with
      | .ok b => b
      | .error _ => false
    | .error _ => false
  | _ => false

/-- A tool invocation requested by a completion: a tool name and the
string argument for the tool's `message` parameter. -/
structure ToolCall where
  name : String
  args : String
deriving DecidableEq

/-- A conversation message as carried by the graph state: a role
("user", "ai", "system", "tool"), text content, and the tool calls
attached to it (empty on everything but a delegating AI message). -/
structure Msg where
  role : String
  content : String
  toolCalls : List ToolCall := []
deriving DecidableEq

/-- What the opaque text-completion capability returns: text content and,
possibly, requested tool invocations. -/
structure Completion where
  content : String
  toolCalls : List ToolCall := []

/-- Errors that abort a graph invocation: a failing completion call
inside a node, or the graph library's recursion budget running out. -/
inductive RunError where
  | completionError
  | recursionLimit
deriving DecidableEq

/-- The routing instruction set of `_supervisor_node`, with the most
recent message content formatted in at the end (the `.format(message=...)`
of the source). -/
def supervisorPrompt (userMessage : String) : String :=
  "You are a Supervisor Agent that coordinates between two agents:\n\nCisco Intersight : Specializes in greetings, welcomes, related to Cisco products and services\nService Catalog :  Specializes in greetings, welcomes, related to Service Catalog products and services\n\nBased on the user\x27s message, decide which agent to call:\n- If the message seems like a greeting, starting a conversation, or saying hello → call call_cisco_agent\n- If the message seems like saying goodbye, ending a conversation, or farewell → call call_service_catalog_agent\n\nIf you\x27re unsure, default to Cisco Intersight.\n\nAnalyze this message and call the appropriate agent: " ++ userMessage

/-- The `user_message` computed by `_supervisor_node`:
`state["messages"][-1].content if state["messages"] else ""` — the content
of the most recent message, of whatever role. -/
def userMessageOf (msgs : List Msg) : String :=
  match msgs.getLast? with
  | some m => m.content
  | none => ""

/-- The `SystemMessage` that `_supervisor_node` prepends to the history. -/
def systemMessageOf (msgs : List Msg) : Msg :=
  { role := "system", content := supervisorPrompt (userMessageOf msgs) }

/-- `_supervisor_node`: invoke the completion capability on the system
message plus the history, then append `AIMessage(content=response.content)`
— a message built from the completion's text content only, so it carries
no tool calls.  (The graph library's `add_messages` reducer turns the
returned single-message delta into an append; the append itself is
modelled from the spec's "append an agent Message".) -/
def supervisorNode (llm : List Msg → Except RunError Completion)
    (msgs : List Msg) : Except RunError (List Msg) :=
  match llm (systemMessageOf msgs :: msgs) with
  | .error e => .error e
  | .ok resp => .ok (msgs ++ [{ role := "ai", content := resp.content }])

/-- `__should_continue`: route to "tools" when the last message carries a
nonempty `tool_calls`, otherwise to "end".  (The source indexes
`state["messages"][-1]`; callers only ever pass the nonempty state left
by the supervisor node, so the empty case is unreachable and mapped to
"end".) -/
def shouldContinue (msgs : List Msg) : String :=
  match msgs.getLast? with
  | some m => if m.toolCalls.isEmpty then "end" else "tools"
  | none => "end"

/-- The tool registry `self.tools = [call_cisco_agent, call_service_catalog_agent]`. -/
def supervisorTools : List String :=
  ["call_cisco_agent", "call_service_catalog_agent"]

/-- Modelled from the spec: the descriptive string a dispatch of an
unregistered tool name produces — "if unresolved, returns a tool_result
Message whose content is a descriptive agent-not-found string rather than
failing the run" (the resolving code lives in the graph library's
`ToolNode`, not under `src/`). -/
def agentNotFound (name : String) : String :=
  "Error: " ++ name ++ " is not a valid agent tool."

/-- Modelled from the spec: dispatch of one tool invocation — resolve the
name against the registry, run the resolved delegate call (`env`) or fall
back to the agent-not-found string, and wrap the text as a tool-result
message. -/
def dispatchOne (env : String → String → String) (registry : List String)
    (tc : ToolCall) : Msg :=
  if tc.name ∈ registry then { role := "tool", content := env tc.name tc.args }
  else { role := "tool", content := agentNotFound tc.name }

/-- Modelled from the spec: the graph library's `ToolNode` over
`self.tools` — execute each tool call carried by the last message and
append one tool-result message per call. -/
def toolNode (env : String → String → String) (registry : List String)
    (msgs : List Msg) : List Msg :=
  match msgs.getLast? with
  | some m => msgs ++ m.toolCalls.map (dispatchOne env registry)
  | none => msgs

/-- The compiled graph of `_build_graph`, parameterised by the decision
node: entry at the node, conditional edges to "tools" or END by
`shouldContinue`, an unconditional edge from "tools" back to the node.
`fuel` is the graph library's recursion budget; exhausting it raises
(`GraphRecursionError`), modelled as `RunError.recursionLimit`. -/
def graphRunWith (node : List Msg → Except RunError (List Msg))
    (env : String → String → String) : Nat → List Msg → Except RunError (List Msg)
  | 0, _ => .error .recursionLimit
  | Nat.succ fuel, msgs =>
    match node msgs with
    | .error e => .error e
    | .ok msgs2 =>
      if shouldContinue msgs2 = "tools" then
        graphRunWith node env fuel (toolNode env supervisorTools msgs2)
      else
        .ok msgs2

/-- `self.graph.ainvoke` of the compiled supervisor graph. -/
def graphRun (llm : List Msg → Except RunError Completion)
    (env : String → String → String) (fuel : Nat) (msgs : List Msg) :
    Except RunError (List Msg) :=
  graphRunWith (supervisorNode llm) env fuel msgs

/-- A decision message that requests delegation of a registered tool. -/
def delegMsg : Msg :=
  { role := "ai", content := "",
    toolCalls := [{ name := "call_cisco_agent", args := "hello" }] }

/-- A hypothetical decision node that requests delegation on every step —
the scenario of the loop-bound claim: its output always carries a tool
invocation of a registered delegate. -/
def delegatingNode (msgs : List Msg) : Except RunError (List Msg) :=
  .ok (msgs ++ [delegMsg])

/-- The fixed user-visible fallback of `SupervisorGraph.run`. -/
def errorFallback : String := "An error occurred while processing your request."

/-- The empty-result text of `SupervisorGraph.run`. -/
def noResponseText : String := "No response from Supervisor Agent."

/-- `SupervisorGraph.run`: seed the state with one user message, invoke
the graph inside `try`, return the last message content (or the
no-response text on an empty result); `except Exception` returns the
fixed fallback string. -/
def run (llm : List Msg → Except RunError Completion)
    (env : String → String → String) (fuel : Nat) (message : String) : String :=
  match graphRun llm env fuel [{ role := "user", content := message }] with
  | .ok msgs =>
    match msgs.getLast? with
    | some m => m.content
    | none => noResponseText
  | .error _ => errorFallback

/-- A raw initial-state message dict as passed to `ainvoke` by the entry
points: an optional "role" key and a "content" key. -/
structure RawInitMsg where
  role : Option String
  content : String
deriving DecidableEq

/-- The initial state built by `SupervisorGraph.run`:
`[{"role": "user", "content": message}]`. -/
def runInitialState (message : String) : List RawInitMsg :=
  [{ role := some "user", content := message }]

/-- The initial state built by `SupervisorAgent.execute`:
`[{"content": user_input}]` — no "role" key. -/
def executeInitialState (userInput : String) : List RawInitMsg :=
  [{ role := none, content := userInput }]

/-- Formalisation of the spec's words (for comparison with
`userMessageOf`): the content of the most recent message of role "user",
empty when there is none. -/
def mostRecentUserContent (msgs : List Msg) : String :=
  match (msgs.filter (fun m => m.role == "user")).getLast? with
  | some m => m.content
  | none => ""

/-- A text part of an A2A wire message (`TextPart(text=message)`). -/
structure TextPart where
  text : String

/-- The A2A wire message built by the tools:
`Message(message_id=..., role=Role.user, parts=[...])`. -/
structure A2AMessage where
  message_id : String
  role : String
  parts : List TextPart

/-- `MessageSendParams(message=...)`. -/
structure MessageSendParams where
  message : A2AMessage

/-- `SendMessageRequest(id=..., params=...)`. -/
structure SendMessageRequest where
  id : String
  params : MessageSendParams

/-- The request `call_cisco_agent` builds for a message string. -/
def mkCiscoRequest (message : String) : SendMessageRequest :=
  { id := "cisco_intersight_tool_call",
    params := { message := { message_id := "user_message_1", role := "user",
                             parts := [{ text := message }] } } }

/-- Modelled from the spec: `request_data.model_dump()` — the JSON
serialization of the request per the wire format of §6,
`{id, params: {message: {message_id, role, parts: [{text}, ...]}}}`
(the serializer itself lives in the `a2a` library, not under `src/`). -/
def requestJson (r : SendMessageRequest) : JValue :=
  .jobj [("id", .jstr r.id),
         ("params", .jobj [("message", .jobj
           [("message_id", .jstr r.params.message.message_id),
            ("role", .jstr r.params.message.role),
            ("parts", .jarr (r.params.message.parts.map
              (fun p => .jobj [("text", .jstr p.text)])))])])]

/-- Field lookup on a JSON object, `none` elsewhere. -/
def jget (v : JValue) (key : String) : Option JValue :=
  match v with
  | .jobj fields => (fields.find? (fun q => q.fst == key)).map Prod.snd
  | _ => none

/-- The text of the first element of a parts array, when it has one. -/
def firstTextOf (v : JValue) : Option String :=
  match v with
  | .jarr (.jobj fields :: _) =>
    match (fields.find? (fun q => q.fst == "text")).map Prod.snd with
    | some (.jstr s) => some s
    | _ => none
  | _ => none

/-- A delegate that echoes the request text verbatim (the round-trip
scenario of the spec): read `params.message.parts[0].text` from the
request and answer `{message: {parts: [{text: same}]}}`. -/
def echoDelegate (req : JValue) : JValue :=
  match jget req "params" with
  | some p =>
    match jget p "message" with
    | some m =>
      match jget m "parts" with
      | some parts =>
        match firstTextOf parts with
        | some t => .jobj [("message", .jobj [("parts", .jarr [.jobj [("text", .jstr t)]])])]
        | none => .jnull
      | none => .jnull
    | none => .jnull
  | none => .jnull

/-- A 2xx response whose body is `{"message": {"parts": parts}}`. -/
def partsBodyOutcome (parts : List JValue) : CallOutcome :=
  .httpResponse 200 (some (.jobj [("message", .jobj [("parts", .jarr parts)])]))

/-- Claim C1: for every user message, if any error is raised during the
orchestration run (including a failure of the text-completion
capability), `SupervisorGraph.run` returns the fixed fallback string
"An error occurred while processing your request." instead of
propagating the error. -/
theorem run_error_returns_fallback
    (llm : List Msg → Except RunError Completion)
    (env : String → String → String) (fuel : Nat) (message : String)
    (h : ∃ e, graphRun llm env fuel [{ role := "user", content := message }] = .error e) :
    run llm env fuel message = errorFallback := by
  obtain ⟨e, he⟩ := h
  unfold run
  rw [he]

/-- Witness for C1: a completion capability that always fails makes the
graph invocation error, and `run` returns the fallback string. -/
theorem run_error_returns_fallback_witness :
    run (fun _ => .error .completionError) (fun _ _ => "") 1 "hello" = errorFallback :=
  run_error_returns_fallback (fun _ => .error .completionError) (fun _ _ => "") 1 "hello"
    ⟨.completionError, rfl⟩

/-- Claim C4: the supervisor decision node appends exactly one message,
built from the completion's text content only, hence carrying no tool
calls; the routing condition therefore returns "end", the tools node is
never entered, and the run terminates after this single decision for
every recursion budget that admits one step. -/
theorem supervisor_single_decision
    (llm : List Msg → Except RunError Completion)
    (env : String → String → String) (fuel : Nat) (msgs : List Msg) (c : Completion)
    (h : llm (systemMessageOf msgs :: msgs) = .ok c) :
    graphRun llm env (fuel + 1) msgs = .ok (msgs ++ [{ role := "ai", content := c.content }]) ∧
    shouldContinue (msgs ++ [{ role := "ai", content := c.content }]) = "end" ∧
    Msg.toolCalls { role := "ai", content := c.content } = [] := by
  have hend : shouldContinue (msgs ++ [{ role := "ai", content := c.content }]) = "end" := by
    simp [shouldContinue, List.getLast?_concat]
  refine ⟨?_, hend, rfl⟩
  unfold graphRun
  simp [graphRunWith, supervisorNode, h, hend]

/-- Witness for C4: even when the completion requests a delegation, the
constructed message drops it and the run ends after one decision. -/
theorem supervisor_single_decision_witness :
    graphRun (fun _ => .ok { content := "hi there",
                             toolCalls := [{ name := "call_cisco_agent", args := "x" }] })
      (fun _ _ => "") (0 + 1) [{ role := "user", content := "hello" }] =
      .ok ([{ role := "user", content := "hello" }] ++ [{ role := "ai", content := "hi there" }]) :=
  (supervisor_single_decision
    (fun _ => .ok { content := "hi there",
                    toolCalls := [{ name := "call_cisco_agent", args := "x" }] })
    (fun _ _ => "") 0 [{ role := "user", content := "hello" }] _ rfl).1

/-- Claim C3, evaluated at the failing input: with a decision node that
requests delegation on every step, the compiled graph cycles
supervisor → tools → supervisor for its whole recursion budget and ends
in the budget-exhaustion error — no explicit maximum number of
Decide→Dispatch cycles ever stops the delegating and forces a final
answer. -/
theorem delegation_loop_has_no_cycle_bound (env : String → String → String) :
    ∀ (fuel : Nat) (msgs : List Msg),
      graphRunWith delegatingNode env fuel msgs = .error .recursionLimit := by
  intro fuel
  induction fuel with
  | zero => intro msgs; rfl
  | succ n ih =>
    intro msgs
    have hsc : shouldContinue (msgs ++ [delegMsg]) = "tools" := by
      simp [shouldContinue, List.getLast?_concat, delegMsg]
    simp only [graphRunWith, delegatingNode, hsc, if_true]
    exact ih _

/-- Claim C5: a successful Decide→Dispatch cycle whose decision carries
exactly one tool invocation grows the conversation state by exactly two
messages — the agent message recording the decision and one tool-result
message from the dispatch; moreover, whenever the routing condition sends
the run back toward another decision, the tools step first appends at
least one tool-result message, so two Decision Engine outputs are never
adjacent without an intervening tool result. -/
theorem cycle_appends_decision_and_tool_result
    (env : String → String → String) (msgs : List Msg) (d : Msg) (tc : ToolCall)
    (hd : d.toolCalls = [tc]) :
    toolNode env supervisorTools (msgs ++ [d]) =
      msgs ++ [d] ++ [dispatchOne env supervisorTools tc] ∧
    (toolNode env supervisorTools (msgs ++ [d])).length = msgs.length + 2 ∧
    (dispatchOne env supervisorTools tc).role = "tool" ∧
    (∀ msgs2, shouldContinue msgs2 = "tools" →
      ∃ ts, ts ≠ [] ∧ (∀ t ∈ ts, t.role = "tool") ∧
        toolNode env supervisorTools msgs2 = msgs2 ++ ts) := by
  have htn : toolNode env supervisorTools (msgs ++ [d]) =
      msgs ++ [d] ++ [dispatchOne env supervisorTools tc] := by
    simp [toolNode, List.getLast?_concat, hd]
  refine ⟨htn, ?_, ?_, ?_⟩
  · rw [htn]; simp
  · unfold dispatchOne
    split <;> rfl
  · intro msgs2 hsc
    cases hm : msgs2.getLast? with
    | none => simp [shouldContinue, hm] at hsc
    | some m =>
      refine ⟨m.toolCalls.map (dispatchOne env supervisorTools), ?_, ?_, ?_⟩
      · have : ¬ m.toolCalls.isEmpty := by
          intro hemp
          simp [shouldContinue, hm, hemp] at hsc
        simp only [ne_eq, List.map_eq_nil_iff]
        intro hnil
        exact this (by simp [hnil])
      · intro t ht
        obtain ⟨tc2, _, rfl⟩ := List.mem_map.mp ht
        unfold dispatchOne
        split <;> rfl
      · simp [toolNode, hm]

/-- Witness for C5: a one-invocation decision on a one-message state
yields a three-message state (growth by exactly two). -/
theorem cycle_appends_decision_and_tool_result_witness :
    (toolNode (fun _ _ => "reply") supervisorTools
        ([{ role := "user", content := "hi" }] ++ [delegMsg])).length =
      ([{ role := "user", content := "hi" }] : List Msg).length + 2 :=
  (cycle_appends_decision_and_tool_result (fun _ _ => "reply")
    [{ role := "user", content := "hi" }] delegMsg
    { name := "call_cisco_agent", args := "hello" } rfl).2.1

/-- Claim C6: dispatching an invocation whose tool name has no entry in
the registry returns a tool-result message whose content is the
descriptive agent-not-found string — the run is extended, never failed. -/
theorem dispatch_unknown_tool_not_found
    (env : String → String → String) (name arg : String)
    (h : name ∉ supervisorTools) (msgs : List Msg) (c : String) :
    dispatchOne env supervisorTools { name := name, args := arg } =
      { role := "tool", content := agentNotFound name } ∧
    toolNode env supervisorTools
        (msgs ++ [{ role := "ai", content := c,
                    toolCalls := [{ name := name, args := arg }] }]) =
      (msgs ++ [{ role := "ai", content := c,
                  toolCalls := [{ name := name, args := arg }] }]) ++
        [{ role := "tool", content := agentNotFound name }] := by
  have h1 : dispatchOne env supervisorTools { name := name, args := arg } =
      { role := "tool", content := agentNotFound name } := by
    simp [dispatchOne, h]
  exact ⟨h1, by simp [toolNode, List.getLast?_concat, h1]⟩

/-- Witness for C6: "call_unknown_agent" resolves to the agent-not-found
tool result. -/
theorem dispatch_unknown_tool_not_found_witness :
    dispatchOne (fun _ _ => "") supervisorTools
        { name := "call_unknown_agent", args := "hi" } =
      { role := "tool", content := agentNotFound "call_unknown_agent" } :=
  (dispatch_unknown_tool_not_found (fun _ _ => "") "call_unknown_agent" "hi"
    (by decide) [] "").1

/-- Counterexample to claim C7: the decision node's routing context takes
the content of the most recent message of whatever role, not of the most
recent user message — on a state ending with a tool result "pong" after
the user message "hi", the supplied argument is "pong", not "hi". -/
theorem routing_argument_is_last_message_content :
    userMessageOf [{ role := "user", content := "hi" }, { role := "tool", content := "pong" }] = "pong" ∧
    mostRecentUserContent [{ role := "user", content := "hi" }, { role := "tool", content := "pong" }] = "hi" ∧
    systemMessageOf [{ role := "user", content := "hi" }, { role := "tool", content := "pong" }] =
      { role := "system", content := supervisorPrompt "pong" } ∧
    ("pong" : String) ≠ "hi" :=
  ⟨rfl, rfl, rfl, by decide⟩

/-- Claim C7 as amended: the decision node supplies the content of the
most recent message; whenever the most recent message is the user message
— as on the first decision of every run — this is exactly the most recent
user message's content. -/
theorem routing_argument_matches_user_when_last_is_user
    (msgs : List Msg) (m : Msg) (h : m.role = "user") :
    userMessageOf (msgs ++ [m]) = mostRecentUserContent (msgs ++ [m]) := by
  unfold userMessageOf mostRecentUserContent
  rw [List.filter_append]
  have hf : List.filter (fun x => x.role == "user") [m] = [m] := by simp [h]
  rw [hf, List.getLast?_concat, List.getLast?_concat]

/-- Witness for the amended C7: on the initial one-user-message state the
two notions agree. -/
theorem routing_argument_matches_user_when_last_is_user_witness :
    userMessageOf ([] ++ [{ role := "user", content := "hi" }]) =
      mostRecentUserContent ([] ++ [{ role := "user", content := "hi" }]) :=
  routing_argument_matches_user_when_last_is_user [] { role := "user", content := "hi" } rfl

/-- Claim C9, evaluated at the failing input: `SupervisorGraph.run` seeds
its state with a role-"user" message, but the `SupervisorAgent.execute`
entry point seeds its state with a message dict carrying no role at all,
so the first message of that run is not a user message. -/
theorem entry_point_first_message_roles :
    (runInitialState "hello").map RawInitMsg.role = [some "user"] ∧
    (executeInitialState "hello").map RawInitMsg.role = [none] ∧
    (none : Option String) ≠ some "user" :=
  ⟨rfl, rfl, by decide⟩

/-- Claim C2: on every enumerated outcome of the single network call — a
connection failure or timeout, a non-2xx status, an unparsable body, or a
parsed body on which the message/parts guard does not hold — the
delegate-calling tool returns a string, either the empty string or the
agent's "did not return a valid response" string, and never raises. -/
theorem delegate_tool_total_on_failures (inv : String) (o : CallOutcome)
    (h : o = .networkError ∨
         (∃ st body, o = .httpResponse st body ∧ (st < 200 ∨ 300 ≤ st)) ∨
         (∃ st, o = .httpResponse st none ∧ 200 ≤ st ∧ st < 300) ∨
         (∃ st data, o = .httpResponse st (some data) ∧ 200 ≤ st ∧ st < 300 ∧
            guardHolds data = false)) :
    callAgentResult inv o = .jstr "" ∨ callAgentResult inv o = .jstr inv := by
  rcases h with rfl | ⟨st, body, rfl, hst⟩ | ⟨st, rfl, h2, h3⟩ | ⟨st, data, rfl, h2, h3, hguard⟩
  · left; rfl
  · left
    simp only [callAgentResult, callAgentBody]
    rw [if_pos hst]
  · left
    have hn : ¬ (st < 200 ∨ 300 ≤ st) := by omega
    simp only [callAgentResult, callAgentBody]
    rw [if_neg hn]
  · have hn : ¬ (st < 200 ∨ 300 ≤ st) := by omega
    simp only [callAgentResult, callAgentBody]
    rw [if_neg hn]
    cases hm : pyContains data "message" with
    | error e => left; simp [hm]
    | ok b =>
      cases b with
      | false => right; simp [hm]
      | true =>
        cases hs : pySubscriptStr data "message" with
        | error e => left; simp [hm, hs]
        | ok msgVal =>
          cases hp : pyContains msgVal "parts" with
          | error e => left; simp [hm, hs, hp]
          | ok b2 =>
            cases b2 with
            | false => right; simp [hm, hs, hp]
            | true =>
              exfalso
              simp [guardHolds, hm, hs, hp] at hguard

/-- Witness for C2: a connection failure makes `call_cisco_agent` return
the empty string. -/
theorem delegate_tool_total_on_failures_witness :
    callAgentResult ciscoInvalidMsg .networkError = .jstr "" ∨
    callAgentResult ciscoInvalidMsg .networkError = .jstr ciscoInvalidMsg :=
  delegate_tool_total_on_failures ciscoInvalidMsg .networkError (Or.inl rfl)

/-- Claim C8: the tool sends exactly the request envelope
`{id, params: {message: {message_id, role: "user", parts: [{text: m}]}}}`,
and composed with a delegate that echoes the first part's text verbatim,
parsing the response recovers `m` unchanged (round trip). -/
theorem wire_round_trip_echo (m : String) :
    requestJson (mkCiscoRequest m) =
      .jobj [("id", .jstr "cisco_intersight_tool_call"),
             ("params", .jobj [("message", .jobj
               [("message_id", .jstr "user_message_1"),
                ("role", .jstr "user"),
                ("parts", .jarr [.jobj [("text", .jstr m)]])])])] ∧
    call_cisco_agent_result
        (.httpResponse 200 (some (echoDelegate (requestJson (mkCiscoRequest m))))) =
      .jstr m :=
  ⟨rfl, rfl⟩

/-- Claim C10: a success response whose `message`/`parts` keys are present
but whose `parts` list is empty makes the guarded indexing raise inside
the `try` block, so the tool returns the empty string — not the
explanatory "did not return a valid response" string; likewise a first
part lacking a `text` key yields the empty string (via the `.get`
default); in all these cases the tool produces a string. -/
theorem empty_parts_or_missing_text_yield_empty_string :
    (call_cisco_agent_result (partsBodyOutcome []) = .jstr "" ∧
     call_service_catalog_agent_result (partsBodyOutcome []) = .jstr "" ∧
     JValue.jstr "" ≠ JValue.jstr ciscoInvalidMsg ∧
     JValue.jstr "" ≠ JValue.jstr catalogInvalidMsg) ∧
    (∀ (inv : String) (fields : List (String × JValue)) (rest : List JValue),
      (∀ q ∈ fields, q.fst ≠ "text") →
      callAgentResult inv (partsBodyOutcome (.jobj fields :: rest)) = .jstr "") := by
  constructor
  · refine ⟨rfl, rfl, ?_, ?_⟩
    · intro hcontra
      injection hcontra with h2
      exact absurd h2 (by decide)
    · intro hcontra
      injection hcontra with h2
      exact absurd h2 (by decide)
  · intro inv fields rest hf
    have hfind : fields.find? (fun q => q.fst == "text") = none :=
      List.find?_eq_none.mpr (fun q hq => by simpa using hf q hq)
    rw [show callAgentResult inv (partsBodyOutcome (.jobj fields :: rest)) =
          (match pyGet (.jobj fields) "text" (.jstr "") with
           | .ok v => v
           | .error _ => JValue.jstr "") from rfl]
    simp [pyGet, hfind]

/-- Witness for C10: a first part with only an unrelated key yields the
empty string. -/
theorem empty_parts_or_missing_text_yield_empty_string_witness :
    callAgentResult ciscoInvalidMsg
        (partsBodyOutcome [JValue.jobj [("other", JValue.jnull)]]) = .jstr "" :=
  empty_parts_or_missing_text_yield_empty_string.2 ciscoInvalidMsg
    [("other", JValue.jnull)] []
    (by intro q hq
        rcases List.mem_singleton.mp hq with rfl
        decide)
